import Mathlib

/-!
Verification of the certificate inspection and alerting engine of the
`docker-images` repository (ssl-checker and ssl-monitor services).

The Python sources are shallowly embedded: pure functions become Lean
functions, the database session becomes an explicit list of rows, and
network effects (DNS answers, HTTP responses, TLS probe outcomes) become
explicit parameters describing the outcome of the corresponding call.
Machine/float arithmetic is idealized over `Int` (timestamps in whole
seconds); Python `int()` of a true division is truncation toward zero,
embedded as `Int.tdiv`.
-/

/- ===== Generic string helpers (models of Python str primitives) ===== -/

/-- Uppercase a string character-wise; models Python `str.upper` on ASCII,
which is the alphabet of every cipher-suite component involved. -/
def upperStr (s : String) : String := ⟨s.data.map Char.toUpper⟩

/-- Lowercase a string character-wise; models Python `str.lower` on ASCII. -/
def lowerStr (s : String) : String := ⟨s.data.map Char.toLower⟩

/-- Decide whether `needle` is a leading segment of `hay`. -/
def listStarts : List Char → List Char → Bool
  | [], _ => true
  | _ :: _, [] => false
  | a :: as, b :: bs => a == b && listStarts as bs

/-- Decide whether `needle` occurs contiguously inside `hay`;
models Python's `needle in hay` on strings (via `strContains`). -/
def listHasSub (needle : List Char) : List Char → Bool
  | [] => listStarts needle []
  | c :: rest => listStarts needle (c :: rest) || listHasSub needle rest

/-- Models Python `needle in hay` for strings. -/
def strContains (hay needle : String) : Bool := listHasSub needle.data hay.data

/-- Models Python `", ".join(xs)`. -/
def joinComma : List String → String
  | [] => ""
  | [x] => x
  | x :: y :: xs => x ++ ", " ++ joinComma (y :: xs)

/-- Split a character list on a separator character; models Python
`str.split(sep)` (so the result is never empty). -/
def splitOnChar (sep : Char) : List Char → List (List Char)
  | [] => [[]]
  | c :: rest =>
      if c == sep then [] :: splitOnChar sep rest
      else
        match splitOnChar sep rest with
        | g :: gs => (c :: g) :: gs
        | [] => [[c]]

/- ===== ssl-checker: constants.py ===== -/

/-- Source: `ssl-checker/constants.py`, `EXPIRATION_WARNING_THRESHOLD`. -/
def EXPIRATION_WARNING_THRESHOLD : Int := 30

/-- Source: `ssl-checker/constants.py`, `DEPRECATED_TLS_VERSIONS`. -/
def DEPRECATED_TLS_VERSIONS : List String := ["TLSv1", "TLSv1.1"]

/-- Source: `ssl-checker/constants.py`, `WEAK_CIPHER_COMPONENTS`. -/
def WEAK_CIPHER_COMPONENTS : List String := ["RC4", "DES", "3DES", "MD5", "SHA1", "NULL"]

/-- Source: `ssl-checker/constants.py`, alert message constants. -/
def ALERT_CERT_EXPIRING_SOON : String := "Certificate expires soon"

def ALERT_INSECURE_TLS : String := "Insecure TLS version"

def ALERT_WEAK_SIGNATURE : String := "Weak signature algorithm"

def ALERT_CN_MISMATCH : String := "Certificate CN/SAN does not match domain"

def ALERT_CERT_EXPIRED : String := "Certificate has expired or is not yet valid"

def ALERT_CERT_INVALID : String := "Certificate is invalid"

def ALERT_SSL_HANDSHAKE_FAILED : String := "SSL handshake failed"

def ALERT_SSL_CHECK_FAILED : String := "SSL check failed"

/-- Source: `ssl-checker/constants.py`, recommendation message constants. -/
def REC_RENEW_CERT_SOON : String := "Renew certificate soon"

def REC_UPGRADE_TLS : String := "Upgrade to TLS 1.2 or higher"

def REC_STRONGER_SIGNATURE : String := "Use stronger signature algorithm"

def REC_MATCH_CN_SAN : String := "Ensure CN/SAN matches domain"

def REC_RENEW_CERT : String := "Renew the certificate"

def REC_CHECK_CERT_CONFIG : String := "Check certificate configuration"

def REC_CHECK_SSL_CONFIG : String := "Check SSL/TLS configuration"

def REC_CHECK_SERVER_CONFIG : String := "Check server configuration"

/-- Source: `ssl-checker/constants.py`, error type constants. -/
def ERROR_CERT_INVALID : String := "CERTIFICATE_INVALID"

def ERROR_CN_MISMATCH : String := "CN_MISMATCH"

def ERROR_CERT_EXPIRED : String := "CERT_EXPIRED"

def ERROR_SSL_ERROR : String := "SSL_ERROR"

def ERROR_UNKNOWN : String := "UNKNOWN_ERROR"

/-- Source: `ssl-checker/constants.py`, status constants. -/
def STATUS_SUCCESS : String := "success"

def STATUS_ERROR : String := "error"

def STATUS_WARNING : String := "warning"

/-- Source: `ssl-checker/constants.py`, `UNKNOWN_SERVER`. -/
def UNKNOWN_SERVER : String := "Unknown"

/- ===== ssl-checker: cert_utils.py ===== -/

/-- Source: `ssl-checker/cert_utils.py`, `get_days_until_expiration`.
The Python body is `int((exp_seconds - now_seconds) / 86400)` where
`exp_seconds = ssl.cert_time_to_seconds(cert['notAfter'])` and
`now_seconds = time.time()`; both are idealized as integer epoch seconds
and Python `int()` of a true division is truncation toward zero
(`Int.tdiv`), not floor. -/
def get_days_until_expiration (notAfterSec nowSec : Int) : Int :=
  Int.tdiv (notAfterSec - nowSec) 86400

/-- Source: `ssl-checker/cert_utils.py`, `evaluate_cipher_strength`.
`if not cipher` is true for both a missing (`None`) and an empty cipher. -/
def evaluate_cipher_strength (cipher : Option String) : String :=
  match cipher with
  | none => "unknown"
  | some c =>
      if c = "" then "unknown"
      else if WEAK_CIPHER_COMPONENTS.any (fun weak => strContains (upperStr c) weak)
      then "weak"
      else "strong"

/-- Embedding of the certificate dictionary returned by Python
`ssl.SSLSocket.getpeercert()`: `subject`/`issuer` as flattened RDN
association lists, optional fields for keys read with `.get`, the raw
`notAfter` display string together with its epoch-second value
(`notAfterSec` stands for `ssl.cert_time_to_seconds(cert['notAfter'])`),
and the already-decoded signature algorithm string. -/
structure PyCert where
  subject : List (String × String)
  issuer : List (String × String)
  version : Option Nat
  serialNumber : Option String
  notBefore : Option String
  notAfter : String
  notAfterSec : Int
  signatureAlgorithm : Option String
  subjectAltName : List (String × String)
deriving DecidableEq, Repr

/-- Embedding of the certificate-information dictionary built by
`parse_certificate` / `create_empty_cert_info` in
`ssl-checker/cert_utils.py`. Every key that can hold `None` is an
`Option`; note that `subjectAltNames` is an `Option (List ...)` so that
the JSON `null` (`none`) and the empty list (`some []`) stay distinct,
exactly as in the Python dictionaries. -/
structure CertInfo where
  subject : Option (List (String × String))
  issuer : Option (List (String × String))
  version : Option Nat
  serialNumber : Option String
  notBefore : Option String
  notAfter : Option String
  signatureAlgorithm : Option String
  tlsVersion : Option String
  cipherSuite : Option String
  subjectAltNames : Option (List (String × String))
  daysUntilExpiration : Option Int
  alerts : List String
deriving DecidableEq, Repr

/-- Source: `ssl-checker/cert_utils.py`, `create_empty_cert_info`.
All keys are set to `None` except `subjectAltNames`, which the Python
code sets to the empty list `[]`, and `alerts`. -/
def create_empty_cert_info (alerts : List String) : CertInfo :=
  { subject := none
    issuer := none
    version := none
    serialNumber := none
    notBefore := none
    notAfter := none
    signatureAlgorithm := none
    tlsVersion := none
    cipherSuite := none
    subjectAltNames := some []
    daysUntilExpiration := none
    alerts := alerts }

/-- Source: `ssl-checker/cert_utils.py`, `parse_certificate`.
`tls`/`cipher` stand for `ssock.cipher()[1]` and `ssock.cipher()[0]`
(`none` when `ssock.cipher()` returns nothing); `nowSec` stands for
`time.time()` in whole seconds. -/
def parse_certificate (cert : PyCert) (tls cipher : Option String) (nowSec : Int) :
    CertInfo × List String × List String :=
  let days := get_days_until_expiration cert.notAfterSec nowSec
  let alerts0 : List String :=
    if days < EXPIRATION_WARNING_THRESHOLD then [ALERT_CERT_EXPIRING_SOON] else []
  let recs0 : List String :=
    if days < EXPIRATION_WARNING_THRESHOLD then [REC_RENEW_CERT_SOON] else []
  let tlsWeak : Bool :=
    match tls with
    | some v => DEPRECATED_TLS_VERSIONS.contains v
    | none => false
  let alerts1 := alerts0 ++ (if tlsWeak then [ALERT_INSECURE_TLS] else [])
  let recs1 := recs0 ++ (if tlsWeak then [REC_UPGRADE_TLS] else [])
  let sigWeak : Bool :=
    match cert.signatureAlgorithm with
    | some s => strContains s "SHA1"
    | none => false
  let alerts2 := alerts1 ++ (if sigWeak then [ALERT_WEAK_SIGNATURE] else [])
  let recs2 := recs1 ++ (if sigWeak then [REC_STRONGER_SIGNATURE] else [])
  let info : CertInfo :=
    { subject := some cert.subject
      issuer := some cert.issuer
      version := cert.version
      serialNumber := cert.serialNumber
      notBefore := cert.notBefore
      notAfter := some cert.notAfter
      signatureAlgorithm := cert.signatureAlgorithm
      tlsVersion := tls
      cipherSuite := cipher
      subjectAltNames := some cert.subjectAltName
      daysUntilExpiration := some days
      alerts := alerts2 }
  (info, alerts2, recs2)

/- ===== ssl-checker: api/ssl_checker.py ===== -/

/-- Outcome of the TLS probe attempted by `get_ssl_certificate_info` in
`ssl-checker/api/ssl_checker.py`: `ok` is a verified
`create_ssl_connection` handshake; `certError msg unverified` is an
`ssl.CertificateError` with message `msg` (already lowercased, as the
Python code lowercases `str(e)`) together with the outcome of the
follow-up unverified connection attempted by `_get_unverified_cert_info`
(`none` when that attempt raises too); `sslHandshakeError` is any other
`ssl.SSLError`; `otherProbeError` is any other exception. -/
inductive ProbeOutcome where
  | ok (cert : PyCert) (tls cipher : Option String)
  | certError (msg : String) (unverified : Option (PyCert × Option String × Option String))
  | sslHandshakeError
  | otherProbeError
deriving DecidableEq, Repr

/-- Source: `ssl-checker/api/ssl_checker.py`, `get_ssl_certificate_info`
(together with `_get_unverified_cert_info`), with the network effect
replaced by an explicit `ProbeOutcome`. Returns
(cert info, ssl status, error type, recommendations). -/
def get_ssl_certificate_info (outcome : ProbeOutcome) (nowSec : Int) :
    CertInfo × String × Option String × List String :=
  match outcome with
  | .ok cert tls cipher =>
      let (info, _, recs) := parse_certificate cert tls cipher nowSec
      (info, STATUS_SUCCESS, none, recs)
  | .certError msg unverified =>
      let cnMismatch : Bool :=
        strContains msg "doesn\x27t match" || strContains msg "common name" ||
          strContains msg "hostname"
      let expired : Bool :=
        strContains msg "expired" || strContains msg "not yet valid"
      let (alerts, recs, errType) :=
        if cnMismatch then ([ALERT_CN_MISMATCH], [REC_MATCH_CN_SAN], ERROR_CN_MISMATCH)
        else if expired then ([ALERT_CERT_EXPIRED], [REC_RENEW_CERT], ERROR_CERT_EXPIRED)
        else ([ALERT_CERT_INVALID], [REC_CHECK_CERT_CONFIG], ERROR_CERT_INVALID)
      let info :=
        match unverified with
        | some (cert, tls, cipher) =>
            { (parse_certificate cert tls cipher nowSec).1 with alerts := alerts }
        | none => create_empty_cert_info alerts
      (info, STATUS_ERROR, some errType, recs)
  | .sslHandshakeError =>
      (create_empty_cert_info [ALERT_SSL_HANDSHAKE_FAILED], STATUS_ERROR,
        some ERROR_SSL_ERROR, [REC_CHECK_SSL_CONFIG])
  | .otherProbeError =>
      (create_empty_cert_info [ALERT_SSL_CHECK_FAILED], STATUS_ERROR,
        some ERROR_UNKNOWN, [REC_CHECK_SERVER_CONFIG])

/- ===== network_utils.py (both services): resolve_domain_to_ip ===== -/

/-- Outcome of the Python `socket.gethostbyname` fallback call:
an address, a `socket.gaierror`, or some other exception. -/
inductive SockResult where
  | ok (ip : String)
  | gaierror
  | otherError
deriving DecidableEq, Repr

/-- Result of the embedded `resolve_domain_to_ip`: a returned address,
a raised `ValueError` with its message, or some other exception
propagating out of the fallback call. -/
inductive ResolveOutcome where
  | ok (ip : String)
  | valueError (msg : String)
  | raised
deriving DecidableEq, Repr

/-- Source: `resolve_domain_to_ip`, identical in
`ssl-checker/network_utils.py` and `ssl-monitor/api/network_utils.py`.
`dnsA` is the address returned by `dns.resolver.resolve(domain, 'A')`
(`none` when that call raises any exception, including an empty answer
set); `sock` is the outcome of the `socket.gethostbyname` fallback,
which is only reached when the DNS path failed. A `socket.gaierror`
there becomes `ValueError("Cannot resolve domain: <domain>")`; any
other exception from the fallback propagates unwrapped. -/
def resolve_domain_to_ip (domain : String) (dnsA : Option String) (sock : SockResult) :
    ResolveOutcome :=
  match dnsA with
  | some ip => .ok ip
  | none =>
      match sock with
      | .ok ip => .ok ip
      | .gaierror => .valueError ("Cannot resolve domain: " ++ domain)
      | .otherError => .raised

/- ===== ssl-checker: api/main.py, check_single_target ===== -/

/-- Python truthiness test `not x` for an optional string argument:
true when the argument is missing (`None`) or the empty string. -/
def isFalsy (o : Option String) : Bool :=
  match o with
  | none => true
  | some s => s = ""

/-- Payload of a successful `check_single_target` response (`data` key).
`geo` models the `ip_info` dictionary (`none` when geolocation failed). -/
structure CheckData where
  domain : Option String
  ip : String
  port : Nat
  ssl : CertInfo
  server : String
  geo : Option (List (String × String))
  recommendations : List String
  sslStatus : String
  serverStatus : String
  ipStatus : String
  sslErrorType : Option String
deriving DecidableEq, Repr

/-- Result of `check_single_target`: the error dictionary
(with its `error` message) or the success dictionary. -/
inductive CheckResult where
  | errorRes (error : String)
  | okRes (data : CheckData)
deriving DecidableEq, Repr

/-- Source: `ssl-checker/api/main.py`, `check_single_target`, with
each network effect replaced by its outcome: `dnsA`/`sock` drive
`resolve_domain_to_ip`, `probe` drives `get_ssl_certificate_info`,
`server` is the value returned by `get_server_header` (which swallows
its own failures and returns "Unknown"), and `geo` the value returned
by `get_ip_geolocation`. The timestamp field is omitted. -/
def check_single_target (domain ip : Option String) (port : Nat)
    (dnsA : Option String) (sock : SockResult) (probe : ProbeOutcome)
    (nowSec : Int) (server : String) (geo : Option (List (String × String))) :
    CheckResult :=
  if isFalsy domain && isFalsy ip then
    .errorRes "Provide either domain or ip"
  else
    let resolved : ResolveOutcome :=
      if isFalsy domain then .ok (ip.getD "")
      else resolve_domain_to_ip (domain.getD "") dnsA sock
    match resolved with
    | .valueError m =>
        .errorRes (if strContains m "Cannot resolve domain"
          then "Unable to resolve domain name" else m)
    | .raised =>
        .errorRes
          "An error occurred while checking SSL certificate. Please verify the domain/IP and try again."
    | .ok ipRes =>
        let (ssl_info, ssl_status, errType, recs) := get_ssl_certificate_info probe nowSec
        let server_status :=
          if server ≠ UNKNOWN_SERVER then STATUS_SUCCESS
          else if ssl_status = STATUS_ERROR then STATUS_WARNING
          else STATUS_ERROR
        let ip_status := if geo.isSome then STATUS_SUCCESS else STATUS_ERROR
        .okRes
          { domain := domain
            ip := ipRes
            port := port
            ssl := ssl_info
            server := server
            geo := geo
            recommendations := recs
            sslStatus := ssl_status
            serverStatus := server_status
            ipStatus := ip_status
            sslErrorType := errType }

/- ===== ssl-monitor: api/alert_service.py ===== -/

/-- Source: `ssl-monitor/api/database.py` `AlertConfig` rows as used by
`alert_service.py` (the boolean toggles the alert checks read). -/
structure AlertConfig where
  enabled : Bool
  alert_30_days : Bool
  alert_7_days : Bool
  alert_1_day : Bool
  alert_ssl_errors : Bool
  alert_geo_changes : Bool
  alert_cert_expired : Bool
deriving DecidableEq, Repr

/-- Source: `ssl-monitor/api/alert_service.py`, `check_certificate_expiry`,
lines 62-94: the classification of an already-extracted `days_remaining`
value (the preceding lines only fetch `daysUntilExpiration` from the
payload, or parse it from `notAfter`). Returns
(alert type, severity, message, days remaining) or `none`. -/
def check_certificate_expiry (days_remaining : Int) (alert_config : AlertConfig) :
    Option (String × String × String × Int) :=
  if days_remaining < 0 && alert_config.alert_cert_expired then
    some ("expired", "critical",
      "SSL certificate has expired " ++ toString days_remaining.natAbs ++ " days ago",
      days_remaining)
  else if days_remaining ≤ 1 && alert_config.alert_1_day then
    some ("expiring_soon", "critical",
      "SSL certificate expiring in " ++ toString days_remaining ++ " day(s)",
      days_remaining)
  else if days_remaining ≤ 7 && alert_config.alert_7_days then
    some ("expiring_soon", "high",
      "SSL certificate expiring in " ++ toString days_remaining ++ " days",
      days_remaining)
  else if days_remaining ≤ 30 && alert_config.alert_30_days then
    some ("expiring_soon", "medium",
      "SSL certificate expiring in " ++ toString days_remaining ++ " days",
      days_remaining)
  else
    none

/-- Entry of the `alerts` list inside an ssl-check payload, as read by
`check_ssl_errors`: both keys are fetched with `.get`, so either may be
missing (`alert.get('type')`, `alert.get('message', '')`). -/
structure AlertEntry where
  type : Option String
  message : Option String
deriving DecidableEq, Repr

/-- The part of the ssl-check payload dictionary that `check_ssl_errors`
reads: `ssl_data.get('sslStatus', 'unknown')` (the default is applied by
the caller of this structure's constructor sites, so `sslStatus` here is
the already-defaulted value) and `ssl_data.get('alerts', [])`. -/
structure SslErrData where
  sslStatus : String
  alerts : List AlertEntry
deriving DecidableEq, Repr

/-- Source: `ssl-monitor/api/alert_service.py`, `check_ssl_errors`.
Returns (alert type, severity, message) or `none`. -/
def check_ssl_errors (ssl_data : SslErrData) (alert_config : AlertConfig) :
    Option (String × String × String) :=
  if !alert_config.alert_ssl_errors then none
  else if ["error", "invalid", "untrusted"].contains ssl_data.sslStatus then
    let error_messages :=
      (ssl_data.alerts.filter (fun a => a.type == some "error")).map
        (fun a => a.message.getD "")
    let message :=
      if error_messages.isEmpty then "SSL validation error"
      else "SSL validation error: " ++ joinComma (error_messages.take 2)
    some ("ssl_error", "high", message)
  else
    none

/-- Source: `ssl-monitor/api/database.py` `Alert` rows as created and
queried by `create_alert` (timestamps as integer epoch seconds). -/
structure Alert where
  user_id : Nat
  organization_id : Option Nat
  domain : String
  alert_type : String
  severity : String
  message : String
  is_read : Bool
  is_resolved : Bool
  created_at : Int
deriving DecidableEq, Repr

/-- The filter of the deduplication query inside `create_alert`:
same user, domain and alert type, unresolved, and created at or after
`cutoff = now - window_hours * 3600` seconds
(`datetime.utcnow() - timedelta(hours=deduplication_window_hours)`). -/
def dedupMatch (user_id : Nat) (domain alert_type : String) (nowSec : Int)
    (window_hours : Nat) (a : Alert) : Bool :=
  a.user_id == user_id && a.domain == domain && a.alert_type == alert_type &&
    a.is_resolved == false && decide (nowSec - (window_hours : Int) * 3600 ≤ a.created_at)

/-- Update the first list element satisfying `p` by `f`, leaving the rest
unchanged; models an in-place SQLAlchemy row update of the row returned
by `.first()`. -/
def updateFirst (p : α → Bool) (f : α → α) : List α → List α
  | [] => []
  | x :: xs => if p x then f x :: xs else x :: updateFirst p f xs

/-- Source: `ssl-monitor/api/alert_service.py`, `create_alert`, with the
database session embedded as the list of `Alert` rows (in insertion
order, so the SQL `.first()` is `List.find?`) and `datetime.utcnow()`
as `nowSec`. Returns the new table state and the returned alert row. -/
def create_alert (db : List Alert) (nowSec : Int) (user_id : Nat)
    (organization_id : Option Nat) (domain alert_type severity message : String)
    (deduplication_window_hours : Nat := 24) : List Alert × Alert :=
  let p := dedupMatch user_id domain alert_type nowSec deduplication_window_hours
  match db.find? p with
  | some existing =>
      let upd := fun (a : Alert) => { a with created_at := nowSec, message := message }
      (updateFirst p upd db, upd existing)
  | none =>
      let alert : Alert :=
        { user_id := user_id
          organization_id := organization_id
          domain := domain
          alert_type := alert_type
          severity := severity
          message := message
          is_read := false
          is_resolved := false
          created_at := nowSec }
      (db ++ [alert], alert)

/- ===== alert_service.py: SSRF validation of webhook URLs ===== -/

/-- Parse one dotted-decimal IPv4 octet as CPython `ipaddress` does:
one to three ASCII digits, no leading zero (unless the octet is exactly
"0"), value at most 255. -/
def parseOctet (s : List Char) : Option Nat :=
  if s ≠ [] && s.length ≤ 3 && s.all Char.isDigit &&
      (s.length == 1 || s.headD '0' != '0') then
    let v := s.foldl (fun acc c => acc * 10 + (c.toNat - 48)) 0
    if v ≤ 255 then some v else none
  else none

/-- Parse a dotted-quad IPv4 address string as CPython
`ipaddress.ip_address` does for IPv4. -/
def parseIPv4 (s : String) : Option (Nat × Nat × Nat × Nat) :=
  match splitOnChar '.' s.data with
  | [a, b, c, d] =>
      match parseOctet a, parseOctet b, parseOctet c, parseOctet d with
      | some a', some b', some c', some d' => some (a', b', c', d')
      | _, _, _, _ => none
  | _ => none

/-- Union of the CPython `ipaddress` IPv4 predicates
`is_private`, `is_loopback`, `is_link_local`, `is_reserved` and
`is_multicast` (the disjunction taken by `_is_private_ip`). -/
def ipv4PrivateOrSpecial (a b c d : Nat) : Bool :=
  a == 0 || a == 10 || a == 127 ||
    (a == 169 && b == 254) ||
    (a == 172 && 16 ≤ b && b ≤ 31) ||
    (a == 192 && b == 0 && c == 0 && d ≤ 7) ||
    (a == 192 && b == 0 && c == 0 && (d == 170 || d == 171)) ||
    (a == 192 && b == 0 && c == 2) ||
    (a == 192 && b == 168) ||
    (a == 198 && (b == 18 || b == 19)) ||
    (a == 198 && b == 51 && c == 100) ||
    (a == 203 && b == 0 && c == 113) ||
    (224 ≤ a && a ≤ 255)

/-- Source: `ssl-monitor/api/alert_service.py`, `_is_private_ip`
(Lean identifiers cannot begin with an underscore). Any string that
`ipaddress.ip_address` cannot parse — in particular every DNS hostname —
is treated as private ("Treat invalid IPs as private for safety") and the
internal `ValueError` never escapes. IPv6 literals are modelled as
unparsable here; no input exercised by the claims is a valid public IPv6
literal, and the one IPv6 address the validator handles ("::1") is caught
by its literal blocklist before this function runs. -/
def is_private_ip (ip_str : String) : Bool :=
  match parseIPv4 ip_str with
  | some (a, b, c, d) => ipv4PrivateOrSpecial a b c d
  | none => true

/-- Result of the Python `urlparse` call restricted to the two attributes
`_validate_webhook_url` reads: the (lowercased) scheme and the
(lowercased) `hostname`, which is `None` when the authority is empty. -/
structure ParsedUrl where
  scheme : String
  hostname : Option String
deriving DecidableEq, Repr

/-- Character set allowed in a URL scheme after its leading letter
(RFC 3986 via `urllib.parse`). -/
def schemeChar (c : Char) : Bool :=
  c.isAlphanum || c == '+' || c == '-' || c == '.'

/-- Split off a URL scheme: the characters before the first ':', provided
they are all scheme characters; returns the scheme and the remainder,
or `none` when no well-formed scheme delimiter exists. -/
def splitSchemeAux : List Char → Option (List Char × List Char)
  | [] => none
  | c :: rest =>
      if c == ':' then some ([], rest)
      else if schemeChar c then
        match splitSchemeAux rest with
        | some (s, r) => some (c :: s, r)
        | none => none
      else none

/-- The netloc (authority) component: after a leading "//", everything up
to the next '/', '?' or '#'. -/
def takeNetloc (l : List Char) : List Char :=
  match l with
  | '/' :: '/' :: rest =>
      rest.takeWhile (fun c => c != '/' && c != '?' && c != '#')
  | _ => []

/-- The characters after the last '@' of the authority (`urllib.parse`
strips user info by partitioning at the rightmost '@'). -/
def afterLastAt (l : List Char) : List Char :=
  (l.reverse.takeWhile (fun c => c != '@')).reverse

/-- Hostname extraction from a netloc as `urllib.parse` does it: strip
user info, take a bracketed IPv6 literal without its brackets or
everything before the first ':', lowercase, and return `None` for an
empty result. -/
def hostFromNetloc (netloc : List Char) : Option String :=
  let h := afterLastAt netloc
  let host :=
    match h with
    | '[' :: rest => rest.takeWhile (fun c => c != ']')
    | _ => h.takeWhile (fun c => c != ':')
  if host.isEmpty then none else some ⟨host.map Char.toLower⟩

/-- Model of Python `urllib.parse.urlparse` restricted to the `scheme`
and `hostname` attributes: a scheme is recognized when the URL starts
with a letter followed by scheme characters and a ':'; the authority is
parsed only after a leading "//". -/
def pyUrlparse (url : String) : ParsedUrl :=
  let (schemeL, rest) :=
    match url.data with
    | c :: _ =>
        if c.isAlpha then
          match splitSchemeAux url.data with
          | some (s, r) => (s, r)
          | none => ([], url.data)
        else ([], url.data)
    | [] => ([], url.data)
  { scheme := ⟨schemeL.map Char.toLower⟩
    hostname := hostFromNetloc (takeNetloc rest) }

/-- Source: `ssl-monitor/api/alert_service.py`, `_validate_webhook_url`
(Lean identifiers cannot begin with an underscore). `dns` models
`socket.getaddrinfo(hostname, None)` restricted to the address strings
it yields, with `none` for a raised `socket.gaierror`. Note that the
`except ValueError: pass` branch around the literal-IP check is dead
code: `is_private_ip` never raises, and returns `true` for every
hostname that is not a parsable IP literal. -/
def validate_webhook_url (dns : String → Option (List String)) (webhook_url : String) :
    Bool :=
  if webhook_url = "" then false
  else
    let parsed := pyUrlparse webhook_url
    if !(["http", "https"].contains parsed.scheme) then false
    else
      match parsed.hostname with
      | none => false
      | some host =>
          if ["localhost", "127.0.0.1", "::1"].contains (lowerStr host) then false
          else if is_private_ip host then false
          else
            match dns host with
            | none => false
            | some addrs => addrs.all (fun ip => !is_private_ip ip)

/- ===== alert_service.py: webhook delivery ===== -/

/-- Outcome of the `requests.post` call inside
`send_webhook_notification_detailed`: an HTTP response with its status
code, a `requests.Timeout`, a `requests.ConnectionError` (with the text
of the exception) or another `requests.RequestException`. -/
inductive HttpOutcome where
  | response (code : Nat)
  | timeout
  | connError (e : String)
  | reqError (e : String)
deriving DecidableEq, Repr

/-- Return value of `send_webhook_notification_detailed`:
the keys of the Python result dictionary. -/
structure DeliveryResult where
  success : Bool
  error : Option String
  status_code : Option Nat
deriving DecidableEq, Repr

/-- Source: `ssl-monitor/api/alert_service.py`,
`send_webhook_notification_detailed`, with the network POST replaced by
its `HttpOutcome` and DNS resolution inside the validator by `dns`.
The `payload` argument (`alert_data`) is carried for fidelity of the
signature; the function's result does not depend on it. -/
def send_webhook_notification_detailed (dns : String → Option (List String))
    (outcome : HttpOutcome) (webhook_url : String)
    (payload : List (String × String)) : DeliveryResult :=
  let _ := payload
  if webhook_url = "" then
    { success := false, error := some "No webhook URL provided", status_code := none }
  else if !validate_webhook_url dns webhook_url then
    { success := false
      error := some "Invalid or unsafe webhook URL. URL must use http/https scheme and cannot point to private/local IP addresses."
      status_code := none }
  else
    match outcome with
    | .response code =>
        if [200, 201, 202, 204].contains code then
          { success := true, error := none, status_code := some code }
        else
          { success := false
            error := some ("Webhook returned status code " ++ toString code)
            status_code := some code }
    | .timeout =>
        { success := false
          error := some "Webhook request timed out after 10 seconds"
          status_code := none }
    | .connError e =>
        { success := false
          error := some ("Failed to connect to webhook URL: " ++ e)
          status_code := none }
    | .reqError e =>
        { success := false
          error := some ("Failed to send webhook: " ++ e)
          status_code := none }

/- ===== Spec-side derived notions ===== -/

/-- Number of alert rows in the table for one (owner, domain, alert type)
key, the quantity the deduplication invariant speaks about. -/
def keyCount (db : List Alert) (user_id : Nat) (domain alert_type : String) : Nat :=
  (db.filter (fun a =>
    a.user_id == user_id && a.domain == domain && a.alert_type == alert_type)).length

/-- Shape of the certificate info produced on total probe failure:
every data field is `None` except `subjectAltNames`, which
`create_empty_cert_info` sets to the empty list. -/
def totalFailureShape (ci : CertInfo) : Prop :=
  ci.subject = none ∧ ci.issuer = none ∧ ci.version = none ∧
    ci.serialNumber = none ∧ ci.notBefore = none ∧ ci.notAfter = none ∧
    ci.signatureAlgorithm = none ∧ ci.tlsVersion = none ∧
    ci.cipherSuite = none ∧ ci.subjectAltNames = some [] ∧
    ci.daysUntilExpiration = none

/- ===== Helper lemmas ===== -/

theorem listStarts_append_self (n t : List Char) : listStarts n (n ++ t) = true := by
  induction n with
  | nil => rfl
  | cons a as ih => simp [listStarts, ih]

theorem listStarts_self (n : List Char) : listStarts n n = true := by
  have h := listStarts_append_self n []
  simpa using h

theorem listHasSub_of_starts {n h : List Char} (hs : listStarts n h = true) :
    listHasSub n h = true := by
  cases h with
  | nil => simpa [listHasSub] using hs
  | cons c rest => simp [listHasSub, hs]

theorem listHasSub_append_left (n a t : List Char) (ht : listHasSub n t = true) :
    listHasSub n (a ++ t) = true := by
  induction a with
  | nil => simpa using ht
  | cons c cs ih => simp [listHasSub, ih]

theorem strContains_append_right (a t m : String) (h : strContains t m = true) :
    strContains (a ++ t) m = true := by
  unfold strContains at *
  have hd : (a ++ t).data = a.data ++ t.data := rfl
  rw [hd]
  exact listHasSub_append_left _ _ _ h

theorem strContains_self_append (m t : String) : strContains (m ++ t) m = true := by
  unfold strContains
  have hd : (m ++ t).data = m.data ++ t.data := rfl
  rw [hd]
  exact listHasSub_of_starts (listStarts_append_self _ _)

theorem strContains_refl (m : String) : strContains m m = true :=
  listHasSub_of_starts (listStarts_self m.data)

theorem strContains_mem_joinComma (xs : List String) (m : String) (hm : m ∈ xs) :
    strContains (joinComma xs) m = true := by
  induction xs with
  | nil => cases hm
  | cons x ys ih =>
      rcases List.mem_cons.mp hm with h | h
      · subst h
        cases ys with
        | nil => exact strContains_refl m
        | cons y t =>
            show strContains ((m ++ ", ") ++ joinComma (y :: t)) m = true
            unfold strContains
            have hd : ((m ++ ", ") ++ joinComma (y :: t)).data =
                m.data ++ (", ".data ++ (joinComma (y :: t)).data) := by
              show (m.data ++ ", ".data) ++ (joinComma (y :: t)).data =
                m.data ++ (", ".data ++ (joinComma (y :: t)).data)
              exact List.append_assoc _ _ _
            rw [hd]
            exact listHasSub_of_starts (listStarts_append_self _ _)
      · cases ys with
        | nil => cases h
        | cons y t =>
            show strContains ((x ++ ", ") ++ joinComma (y :: t)) m = true
            exact strContains_append_right _ _ _ (ih h)

theorem string_ne_of_take_ne {s t : String} (n : Nat)
    (h : ¬ s.data.take n = t.data.take n) : s ≠ t :=
  fun he => h (he ▸ rfl)

theorem length_updateFirst {α : Type} (p : α → Bool) (f : α → α) (l : List α) :
    (updateFirst p f l).length = l.length := by
  induction l with
  | nil => rfl
  | cons x xs ih =>
      by_cases h : p x <;> simp [updateFirst, h, ih]

theorem keyCount_updateFirst (u : Nat) (d t : String) (p : Alert → Bool)
    (now : Int) (msg : String) (l : List Alert) :
    keyCount (updateFirst p (fun a => { a with created_at := now, message := msg }) l) u d t =
      keyCount l u d t := by
  induction l with
  | nil => rfl
  | cons x xs ih =>
      by_cases h : p x
      · simp only [updateFirst, h, if_true]
        show keyCount ({ x with created_at := now, message := msg } :: xs) u d t =
          keyCount (x :: xs) u d t
        simp only [keyCount, List.filter_cons]
        split <;> simp
      · simp only [updateFirst, h, if_false]
        show keyCount (x :: updateFirst p _ xs) u d t = keyCount (x :: xs) u d t
        simp only [keyCount, List.filter_cons] at *
        by_cases hk : (x.user_id == u && x.domain == d && x.alert_type == t) = true <;>
          simp [hk, ih]

theorem tdiv86400_neg_iff (t : Int) : Int.tdiv t 86400 < 0 ↔ t ≤ -86400 := by
  have h : (86400 : Int) = Int.ofNat 86400 := rfl
  rw [h]
  cases t with
  | ofNat k => simp [Int.tdiv]; omega
  | negSucc k => simp [Int.tdiv, Int.negSucc_eq]; omega

theorem tdiv86400_eq_zero_iff (t : Int) : Int.tdiv t 86400 = 0 ↔ -86400 < t ∧ t < 86400 := by
  have h : (86400 : Int) = Int.ofNat 86400 := rfl
  rw [h]
  cases t with
  | ofNat k => simp [Int.tdiv]; omega
  | negSucc k => simp [Int.tdiv, Int.negSucc_eq]; omega

/- ===== Claim theorems ===== -/

/-- C1: the spec's webhook URL validation claim. The rejecting cases hold
(empty URL, non-http/https scheme, literal localhost, loopback and
private IP literals), but the accepting case is a code bug: for every
DNS behaviour whatsoever — public resolution included —
`_validate_webhook_url` returns `False` on
"https://hooks.slack.com/services/x", because `_is_private_ip` returns
`True` for any hostname that is not a parsable IP literal instead of
raising `ValueError`, so the `except ValueError: pass` escape to DNS
resolution is dead code and every domain-name URL is rejected. -/
theorem C1_webhook_validation_rejects_public_hostname :
    ∀ dns : String → Option (List String),
      validate_webhook_url dns "https://hooks.slack.com/services/x" = false ∧
      validate_webhook_url dns "http://127.0.0.1" = false ∧
      validate_webhook_url dns "http://10.0.0.5" = false ∧
      validate_webhook_url dns "http://localhost:9999" = false ∧
      validate_webhook_url dns "ftp://x.com" = false ∧
      validate_webhook_url dns "" = false ∧
      is_private_ip "hooks.slack.com" = true ∧
      validate_webhook_url (fun _ => some ["44.196.38.222"])
        "https://hooks.slack.com/services/x" = false := by
  intro dns
  exact ⟨rfl, rfl, rfl, rfl, rfl, rfl, rfl, rfl⟩

/-- C2 counterexample: a certificate that expired one hour ago
(`notAfter = 0`, `now = 3600`). The code computes day count 0, not the
floor value -1, and in particular not a strictly negative number, so the
claim's floor formula and its "strictly negative for any past notAfter"
consequence are both false on the code. -/
theorem C2_floor_claim_counterexample :
    get_days_until_expiration 0 3600 = 0 ∧
      (0 : Int) - 3600 < 0 ∧
      ¬ get_days_until_expiration 0 3600 < 0 ∧
      Int.fdiv ((0 : Int) - 3600) 86400 = -1 := by
  refine ⟨rfl, by decide, by decide, by decide⟩

/-- C2 amended: `daysUntilExpiration` is the truncation toward zero of
`(notAfter − now) / 86400` (Python `int()` of a true division); it is
strictly negative exactly when the certificate has been expired for at
least one full day, it is nonnegative whenever `notAfter` is not in the
past, and a certificate expired by less than 86400 seconds yields 0. -/
theorem C2_days_until_expiration_truncates :
    ∀ notAfterSec nowSec : Int,
      get_days_until_expiration notAfterSec nowSec =
        Int.tdiv (notAfterSec - nowSec) 86400 ∧
      (get_days_until_expiration notAfterSec nowSec < 0 ↔
        notAfterSec - nowSec ≤ -86400) ∧
      (nowSec ≤ notAfterSec → 0 ≤ get_days_until_expiration notAfterSec nowSec) ∧
      (notAfterSec < nowSec → nowSec - notAfterSec < 86400 →
        get_days_until_expiration notAfterSec nowSec = 0) := by
  intro notAfterSec nowSec
  have h1 := tdiv86400_neg_iff (notAfterSec - nowSec)
  have h2 := tdiv86400_eq_zero_iff (notAfterSec - nowSec)
  unfold get_days_until_expiration
  refine ⟨rfl, h1, ?_, ?_⟩
  · intro h
    omega
  · intro h h'
    omega

/-- Witness for the amended C2 theorem at `notAfter = 100`, `now = 0`
and at a certificate expired by one hour. -/
theorem C2_days_until_expiration_truncates_witness :
    0 ≤ get_days_until_expiration 100 0 ∧ get_days_until_expiration 0 3599 = 0 := by
  constructor
  · exact (C2_days_until_expiration_truncates 100 0).2.2.1 (by decide)
  · exact (C2_days_until_expiration_truncates 0 3599).2.2.2 (by decide) (by decide)

/-- C6 counterexample: "DES-CBC" contains none of the claim's five
substrings RC4/3DES/MD5/NULL/SHA1 (case-insensitively) and is non-empty,
yet `evaluate_cipher_strength` returns "weak", not "strong": the code's
component list also contains plain "DES". -/
theorem C6_cipher_claim_counterexample :
    evaluate_cipher_strength (some "DES-CBC") = "weak" ∧
      ("DES-CBC" : String) ≠ "" ∧
      (["RC4", "3DES", "MD5", "NULL", "SHA1"].all
        (fun w => !strContains (upperStr "DES-CBC") w)) = true := by
  refine ⟨by decide, by decide, by decide⟩

/-- C6 amended: with "DES" added to the substring list — i.e. over the
code's `WEAK_CIPHER_COMPONENTS = [RC4, DES, 3DES, MD5, SHA1, NULL]` —
any cipher containing one of them case-insensitively is "weak", a
non-empty cipher containing none is "strong", and an absent or empty
cipher is "unknown". -/
theorem C6_cipher_strength_components :
    ∀ c : String,
      evaluate_cipher_strength none = "unknown" ∧
      evaluate_cipher_strength (some "") = "unknown" ∧
      (c ≠ "" → (∃ w ∈ WEAK_CIPHER_COMPONENTS, strContains (upperStr c) w = true) →
        evaluate_cipher_strength (some c) = "weak") ∧
      (c ≠ "" → (∀ w ∈ WEAK_CIPHER_COMPONENTS, strContains (upperStr c) w = false) →
        evaluate_cipher_strength (some c) = "strong") := by
  intro c
  refine ⟨rfl, rfl, ?_, ?_⟩
  · intro hne hw
    have ha : WEAK_CIPHER_COMPONENTS.any (fun weak => strContains (upperStr c) weak) = true := by
      rw [List.any_eq_true]
      obtain ⟨w, hw1, hw2⟩ := hw
      exact ⟨w, hw1, hw2⟩
    simp [evaluate_cipher_strength, hne, ha]
  · intro hne hw
    have ha : WEAK_CIPHER_COMPONENTS.any (fun weak => strContains (upperStr c) weak) = false := by
      rw [List.any_eq_false]
      intro w hw1
      simp [hw w hw1]
    simp [evaluate_cipher_strength, hne, ha]

/-- Witness for the amended C6 theorem: a modern AEAD suite evaluates to
"strong". -/
theorem C6_cipher_strength_components_witness :
    evaluate_cipher_strength (some "ECDHE-RSA-AES128-GCM-SHA256") = "strong" :=
  (C6_cipher_strength_components "ECDHE-RSA-AES128-GCM-SHA256").2.2.2
    (by decide) (by decide)

/-- C7 counterexample: on a total probe failure (an `ssl.SSLError`
handshake failure) the returned certificate info does not have every
field null: `subjectAltNames` is the empty list `[]`, not `None`. -/
theorem C7_empty_cert_info_counterexample :
    (get_ssl_certificate_info .sslHandshakeError 0).1.subjectAltNames = some [] ∧
      (some ([] : List (String × String)) ≠ (none : Option (List (String × String)))) := by
  refine ⟨rfl, by simp⟩

/-- C7 amended: on total probe failure — an SSL handshake error, an
unknown probe error, or a certificate validation error whose unverified
retry also fails — every field of the returned certificate info is null
except `subjectAltNames`, which is the empty list, and the alert list,
which is non-empty on each of these error paths. -/
theorem C7_total_failure_fields :
    ∀ (msg : String) (nowSec : Int),
      (totalFailureShape (get_ssl_certificate_info .sslHandshakeError nowSec).1 ∧
        (get_ssl_certificate_info .sslHandshakeError nowSec).1.alerts ≠ []) ∧
      (totalFailureShape (get_ssl_certificate_info .otherProbeError nowSec).1 ∧
        (get_ssl_certificate_info .otherProbeError nowSec).1.alerts ≠ []) ∧
      (totalFailureShape (get_ssl_certificate_info (.certError msg none) nowSec).1 ∧
        (get_ssl_certificate_info (.certError msg none) nowSec).1.alerts ≠ []) := by
  intro msg nowSec
  refine ⟨⟨?_, ?_⟩, ⟨?_, ?_⟩, ⟨?_, ?_⟩⟩
  · exact ⟨rfl, rfl, rfl, rfl, rfl, rfl, rfl, rfl, rfl, rfl, rfl⟩
  · simp [get_ssl_certificate_info, create_empty_cert_info, ALERT_SSL_HANDSHAKE_FAILED]
  · exact ⟨rfl, rfl, rfl, rfl, rfl, rfl, rfl, rfl, rfl, rfl, rfl⟩
  · simp [get_ssl_certificate_info, create_empty_cert_info, ALERT_SSL_CHECK_FAILED]
  · simp only [get_ssl_certificate_info, totalFailureShape]
    split <;> simp [create_empty_cert_info]
  · simp only [get_ssl_certificate_info]
    split
    · simp [create_empty_cert_info, ALERT_CN_MISMATCH]
    · split <;> simp [create_empty_cert_info, ALERT_CERT_EXPIRED, ALERT_CERT_INVALID]

/-- C8: the resolver raises its `ValueError` resolution error exactly
when both the DNS A-record path and the socket fallback fail with a
resolution failure; when the DNS path throws but the fallback succeeds,
it returns the fallback's address, and when the DNS path succeeds its
address is returned directly. -/
theorem C8_resolver_fallback :
    ∀ (domain : String) (dnsA : Option String) (sock : SockResult),
      ((∃ m, resolve_domain_to_ip domain dnsA sock = .valueError m) ↔
        (dnsA = none ∧ sock = .gaierror)) ∧
      (∀ ip, dnsA = none → sock = .ok ip →
        resolve_domain_to_ip domain dnsA sock = .ok ip) ∧
      (∀ ip, dnsA = some ip → resolve_domain_to_ip domain dnsA sock = .ok ip) := by
  intro domain dnsA sock
  refine ⟨?_, ?_, ?_⟩
  · cases dnsA <;> cases sock <;> simp [resolve_domain_to_ip]
  · intro ip h1 h2
    subst h1; subst h2; rfl
  · intro ip h1
    subst h1; rfl

/-- Witness for C8: DNS lookup fails but the socket fallback succeeds,
and the resolver returns the fallback's address. -/
theorem C8_resolver_fallback_witness :
    resolve_domain_to_ip "example.com" none (.ok "93.184.216.34") = .ok "93.184.216.34" :=
  (C8_resolver_fallback "example.com" none (.ok "93.184.216.34")).2.1
    "93.184.216.34" rfl rfl

/-- C10: when both the domain and the IP are absent (missing or empty,
Python falsiness), `check_single_target` returns the error result
"Provide either domain or ip", independently of every other input —
in particular independent of the DNS, socket, TLS-probe, server-header
and geolocation outcomes, so none of those steps can influence it. -/
theorem C10_missing_input_error :
    ∀ (domain ip : Option String) (port : Nat) (dnsA : Option String)
      (sock : SockResult) (probe : ProbeOutcome) (nowSec : Int)
      (server : String) (geo : Option (List (String × String))),
      isFalsy domain = true → isFalsy ip = true →
      check_single_target domain ip port dnsA sock probe nowSec server geo =
        .errorRes "Provide either domain or ip" := by
  intro domain ip port dnsA sock probe nowSec server geo h1 h2
  simp [check_single_target, h1, h2]

/-- Witness for C10 at `domain = None`, `ip = ""`. -/
theorem C10_missing_input_error_witness :
    check_single_target none (some "") 443 none .gaierror .sslHandshakeError 0
        "Unknown" none = .errorRes "Provide either domain or ip" :=
  C10_missing_input_error none (some "") 443 none .gaierror .sslHandshakeError 0
    "Unknown" none rfl rfl

/-- C3: the expiry check classifies a negative days-remaining with the
expired toggle on as (expired, critical); otherwise it tests the 1-day,
7-day and 30-day thresholds in that order, each gated by its own toggle,
the first match giving (expiring_soon, critical/high/medium), and none
matching gives no alert. In particular 5 days remaining with the 7-day
and 1-day toggles on yields exactly the single (expiring_soon, high)
result. -/
theorem C3_expiry_classification :
    (∀ (days : Int) (cfg : AlertConfig),
      (days < 0 → cfg.alert_cert_expired = true →
        check_certificate_expiry days cfg =
          some ("expired", "critical",
            "SSL certificate has expired " ++ toString days.natAbs ++ " days ago", days)) ∧
      (¬ (days < 0 ∧ cfg.alert_cert_expired = true) →
        (days ≤ 1 → cfg.alert_1_day = true →
          check_certificate_expiry days cfg =
            some ("expiring_soon", "critical",
              "SSL certificate expiring in " ++ toString days ++ " day(s)", days)) ∧
        (¬ (days ≤ 1 ∧ cfg.alert_1_day = true) → days ≤ 7 → cfg.alert_7_days = true →
          check_certificate_expiry days cfg =
            some ("expiring_soon", "high",
              "SSL certificate expiring in " ++ toString days ++ " days", days)) ∧
        (¬ (days ≤ 1 ∧ cfg.alert_1_day = true) → ¬ (days ≤ 7 ∧ cfg.alert_7_days = true) →
          days ≤ 30 → cfg.alert_30_days = true →
          check_certificate_expiry days cfg =
            some ("expiring_soon", "medium",
              "SSL certificate expiring in " ++ toString days ++ " days", days)) ∧
        (¬ (days ≤ 1 ∧ cfg.alert_1_day = true) → ¬ (days ≤ 7 ∧ cfg.alert_7_days = true) →
          ¬ (days ≤ 30 ∧ cfg.alert_30_days = true) →
          check_certificate_expiry days cfg = none))) ∧
    (∀ cfg : AlertConfig, cfg.alert_7_days = true → cfg.alert_1_day = true →
      check_certificate_expiry 5 cfg =
        some ("expiring_soon", "high", "SSL certificate expiring in 5 days", 5)) := by
  constructor
  · intro days cfg
    constructor
    · intro h1 h2
      simp [check_certificate_expiry, h1, h2]
    · intro h0
      refine ⟨?_, ?_, ?_, ?_⟩
      · intro h1 h2
        simp [check_certificate_expiry, h0, h1, h2]
      · intro hn1 h1 h2
        simp [check_certificate_expiry, h0, hn1, h1, h2]
      · intro hn1 hn7 h1 h2
        simp [check_certificate_expiry, h0, hn1, hn7, h1, h2]
      · intro hn1 hn7 hn30
        simp [check_certificate_expiry, h0, hn1, hn7, hn30]
  · intro cfg h7 h1
    have hq :
        check_certificate_expiry 5 cfg =
          some ("expiring_soon", "high",
            "SSL certificate expiring in " ++ toString (5 : Int) ++ " days", 5) := by
      simp [check_certificate_expiry, h7, h1]
    simpa using hq

/-- Witness for C3 at a certificate expired 3 days ago with the expired
toggle on, and at the spec's 5-day example configuration. -/
theorem C3_expiry_classification_witness :
    check_certificate_expiry (-3) ⟨true, true, true, true, true, false, true⟩ =
      some ("expired", "critical", "SSL certificate has expired 3 days ago", -3) ∧
    check_certificate_expiry 5 ⟨true, true, true, true, true, false, true⟩ =
      some ("expiring_soon", "high", "SSL certificate expiring in 5 days", 5) := by
  constructor
  · have h := (C3_expiry_classification.1 (-3) ⟨true, true, true, true, true, false, true⟩).1
      (by decide) rfl
    simpa using h
  · exact C3_expiry_classification.2 ⟨true, true, true, true, true, false, true⟩ rfl rfl

/-- C4: the deduplicating `create_alert`. When an unresolved alert of the
same (owner, domain, alert type) key created inside the window exists,
the call leaves the table size and the key's alert count unchanged and
returns that alert with `created_at` refreshed to now and the new
message; a new row is appended only when no such alert exists. -/
theorem C4_create_alert_dedup :
    ∀ (db : List Alert) (nowSec : Int) (u : Nat) (org : Option Nat)
      (d t sev msg : String) (w : Nat) (a : Alert),
      (db.find? (dedupMatch u d t nowSec w) = some a →
        (create_alert db nowSec u org d t sev msg w).1.length = db.length ∧
        keyCount (create_alert db nowSec u org d t sev msg w).1 u d t =
          keyCount db u d t ∧
        (create_alert db nowSec u org d t sev msg w).2 =
          { a with created_at := nowSec, message := msg }) ∧
      (db.find? (dedupMatch u d t nowSec w) = none →
        (create_alert db nowSec u org d t sev msg w).1 =
          db ++ [{ user_id := u, organization_id := org, domain := d, alert_type := t,
                   severity := sev, message := msg, is_read := false,
                   is_resolved := false, created_at := nowSec }] ∧
        (create_alert db nowSec u org d t sev msg w).1.length = db.length + 1) := by
  intro db nowSec u org d t sev msg w a
  constructor
  · intro hfind
    simp only [create_alert, hfind]
    exact ⟨length_updateFirst _ _ _, keyCount_updateFirst _ _ _ _ _ _ _, trivial⟩
  · intro hfind
    simp only [create_alert, hfind]
    simp

/-- Witness for C4: a table holding one matching unresolved in-window
alert; the call keeps one row, keeps the key count, and returns the
refreshed alert. -/
theorem C4_create_alert_dedup_witness :
    (create_alert
        [⟨1, none, "example.org", "expired", "critical", "old", false, false, 500⟩]
        1000 1 none "example.org" "expired" "critical" "new" 24).1.length = 1 ∧
    keyCount (create_alert
        [⟨1, none, "example.org", "expired", "critical", "old", false, false, 500⟩]
        1000 1 none "example.org" "expired" "critical" "new" 24).1
        1 "example.org" "expired" =
      keyCount [⟨1, none, "example.org", "expired", "critical", "old", false, false, 500⟩]
        1 "example.org" "expired" ∧
    (create_alert
        [⟨1, none, "example.org", "expired", "critical", "new", false, false, 500⟩]
        1000 1 none "example.org" "expired" "critical" "new" 24).2 =
      ⟨1, none, "example.org", "expired", "critical", "new", false, false, 1000⟩ := by
  refine ⟨?_, ?_, ?_⟩
  · exact ((C4_create_alert_dedup
      [⟨1, none, "example.org", "expired", "critical", "old", false, false, 500⟩]
      1000 1 none "example.org" "expired" "critical" "new" 24
      ⟨1, none, "example.org", "expired", "critical", "old", false, false, 500⟩).1
      (by decide)).1
  · exact ((C4_create_alert_dedup
      [⟨1, none, "example.org", "expired", "critical", "old", false, false, 500⟩]
      1000 1 none "example.org" "expired" "critical" "new" 24
      ⟨1, none, "example.org", "expired", "critical", "old", false, false, 500⟩).1
      (by decide)).2.1
  · exact ((C4_create_alert_dedup
      [⟨1, none, "example.org", "expired", "critical", "new", false, false, 500⟩]
      1000 1 none "example.org" "expired" "critical" "new" 24
      ⟨1, none, "example.org", "expired", "critical", "new", false, false, 500⟩).1
      (by decide)).2.2

/-- C5: webhook delivery validates first and short-circuits with an error
on rejection; on a response, success holds exactly for status codes
200/201/202/204 and the status code is reported, with a non-2xx message
naming the code; timeouts, connection errors and request errors each get
their own fixed message shape, and the three delivery-failure message
families plus the non-2xx message are pairwise distinct strings. The
embedding is a total function, so no exception escapes. -/
theorem C5_webhook_delivery :
    (∀ (dns : String → Option (List String)) (outcome : HttpOutcome)
        (url : String) (payload : List (String × String)),
      (validate_webhook_url dns url = false →
        (send_webhook_notification_detailed dns outcome url payload).success = false ∧
        (send_webhook_notification_detailed dns outcome url payload).error ≠ none ∧
        (send_webhook_notification_detailed dns outcome url payload).status_code = none) ∧
      (validate_webhook_url dns url = true →
        (∀ code, outcome = .response code →
          (send_webhook_notification_detailed dns outcome url payload).status_code =
            some code ∧
          ((send_webhook_notification_detailed dns outcome url payload).success = true ↔
            (code = 200 ∨ code = 201 ∨ code = 202 ∨ code = 204)) ∧
          (¬ (code = 200 ∨ code = 201 ∨ code = 202 ∨ code = 204) →
            (send_webhook_notification_detailed dns outcome url payload).error =
              some ("Webhook returned status code " ++ toString code))) ∧
        (outcome = .timeout →
          send_webhook_notification_detailed dns outcome url payload =
            ⟨false, some "Webhook request timed out after 10 seconds", none⟩) ∧
        (∀ e, outcome = .connError e →
          send_webhook_notification_detailed dns outcome url payload =
            ⟨false, some ("Failed to connect to webhook URL: " ++ e), none⟩) ∧
        (∀ e, outcome = .reqError e →
          send_webhook_notification_detailed dns outcome url payload =
            ⟨false, some ("Failed to send webhook: " ++ e), none⟩))) ∧
    (∀ c : Nat, ("Webhook returned status code " ++ toString c) ≠
      "Webhook request timed out after 10 seconds") ∧
    (∀ (c : Nat) (e : String), ("Webhook returned status code " ++ toString c) ≠
      ("Failed to connect to webhook URL: " ++ e)) ∧
    (∀ (c : Nat) (e : String), ("Webhook returned status code " ++ toString c) ≠
      ("Failed to send webhook: " ++ e)) ∧
    (∀ e : String, ("Failed to connect to webhook URL: " ++ e) ≠
      "Webhook request timed out after 10 seconds") ∧
    (∀ e : String, ("Failed to send webhook: " ++ e) ≠
      "Webhook request timed out after 10 seconds") ∧
    (∀ e e' : String, ("Failed to connect to webhook URL: " ++ e) ≠
      ("Failed to send webhook: " ++ e')) := by
  refine ⟨?_, ?_, ?_, ?_, ?_, ?_, ?_⟩
  · intro dns outcome url payload
    constructor
    · intro hv
      have hv0 : url ≠ "" → validate_webhook_url dns url = false := fun _ => hv
      by_cases hu : url = ""
      · subst hu
        exact ⟨rfl, by simp [send_webhook_notification_detailed], rfl⟩
      · simp [send_webhook_notification_detailed, hu, hv]
    · intro hv
      have hu : url ≠ "" := by
        intro h
        subst h
        simp [validate_webhook_url] at hv
      refine ⟨?_, ?_, ?_, ?_⟩
      · intro code hc
        subst hc
        by_cases hs : [200, 201, 202, 204].contains code = true
        · have hm : code = 200 ∨ code = 201 ∨ code = 202 ∨ code = 204 := by
            simpa using hs
          simp [send_webhook_notification_detailed, hu, hv, hs, hm]
        · have hm : ¬ (code = 200 ∨ code = 201 ∨ code = 202 ∨ code = 204) := by
            simpa using hs
          simp [send_webhook_notification_detailed, hu, hv, hs, hm]
      · intro hc
        subst hc
        simp [send_webhook_notification_detailed, hu, hv]
      · intro e hc
        subst hc
        simp [send_webhook_notification_detailed, hu, hv]
      · intro e hc
        subst hc
        simp [send_webhook_notification_detailed, hu, hv]
  · intro c
    apply string_ne_of_take_ne 11
    show ¬ (("Webhook returned status code ".data ++ (toString c).data).take 11 = _)
    rw [List.take_append_of_le_length (by decide)]
    decide
  · intro c e
    apply string_ne_of_take_ne 1
    show ¬ (("Webhook returned status code ".data ++ (toString c).data).take 1 =
      ("Failed to connect to webhook URL: ".data ++ e.data).take 1)
    rw [List.take_append_of_le_length (by decide),
      List.take_append_of_le_length (by decide)]
    decide
  · intro c e
    apply string_ne_of_take_ne 1
    show ¬ (("Webhook returned status code ".data ++ (toString c).data).take 1 =
      ("Failed to send webhook: ".data ++ e.data).take 1)
    rw [List.take_append_of_le_length (by decide),
      List.take_append_of_le_length (by decide)]
    decide
  · intro e
    apply string_ne_of_take_ne 1
    show ¬ (("Failed to connect to webhook URL: ".data ++ e.data).take 1 = _)
    rw [List.take_append_of_le_length (by decide)]
    decide
  · intro e
    apply string_ne_of_take_ne 1
    show ¬ (("Failed to send webhook: ".data ++ e.data).take 1 = _)
    rw [List.take_append_of_le_length (by decide)]
    decide
  · intro e e'
    apply string_ne_of_take_ne 11
    show ¬ (("Failed to connect to webhook URL: ".data ++ e.data).take 11 =
      ("Failed to send webhook: ".data ++ e'.data).take 11)
    rw [List.take_append_of_le_length (by decide),
      List.take_append_of_le_length (by decide)]
    decide

/-- Witness for C5: a webhook URL with a public IP-literal hostname
passes validation and a 200 response reports success with its status
code, while an unsafe URL short-circuits. -/
theorem C5_webhook_delivery_witness :
    (send_webhook_notification_detailed (fun _ => some ["8.8.8.8"]) (.response 200)
        "http://8.8.8.8" []).success = true ∧
    (send_webhook_notification_detailed (fun _ => some ["8.8.8.8"]) (.response 200)
        "http://8.8.8.8" []).status_code = some 200 ∧
    (send_webhook_notification_detailed (fun _ => some ["8.8.8.8"]) (.response 200)
        "http://10.0.0.5" []).success = false := by
  have h := (C5_webhook_delivery.1 (fun _ => some ["8.8.8.8"]) (.response 200)
    "http://8.8.8.8" []).2 rfl
  have h200 := h.1 200 rfl
  have hbad := (C5_webhook_delivery.1 (fun _ => some ["8.8.8.8"]) (.response 200)
    "http://10.0.0.5" []).1 rfl
  exact ⟨h200.2.1.mpr (Or.inl rfl), h200.1, hbad.1⟩

/-- C9: with the SSL-error toggle off, or with an ssl-status outside
{error, invalid, untrusted}, the SSL-error check yields nothing; with
the toggle on and such a status it yields exactly one
(ssl_error, high, message) result whose message contains each of the
first two error-type alert messages of the check result. -/
theorem C9_ssl_error_check :
    ∀ (d : SslErrData) (cfg : AlertConfig),
      (cfg.alert_ssl_errors = false → check_ssl_errors d cfg = none) ∧
      (¬ (d.sslStatus = "error" ∨ d.sslStatus = "invalid" ∨ d.sslStatus = "untrusted") →
        check_ssl_errors d cfg = none) ∧
      (cfg.alert_ssl_errors = true →
        (d.sslStatus = "error" ∨ d.sslStatus = "invalid" ∨ d.sslStatus = "untrusted") →
        ∃ msg, check_ssl_errors d cfg = some ("ssl_error", "high", msg) ∧
          ∀ m ∈ ((d.alerts.filter (fun a => a.type == some "error")).map
              (fun a => a.message.getD "")).take 2,
            strContains msg m = true) := by
  intro d cfg
  refine ⟨?_, ?_, ?_⟩
  · intro h
    simp [check_ssl_errors, h]
  · intro h
    push_neg at h
    obtain ⟨h1, h2, h3⟩ := h
    simp [check_ssl_errors, h1, h2, h3]
  · intro hb hs
    by_cases he : ((d.alerts.filter (fun a => a.type == some "error")).map
        (fun a => a.message.getD "")).isEmpty = true
    · refine ⟨"SSL validation error", ?_, ?_⟩
      · rcases hs with h | h | h <;> simp [check_ssl_errors, hb, h, he]
      · intro m hm
        rw [List.isEmpty_iff] at he
        rw [he] at hm
        cases hm
    · refine ⟨"SSL validation error: " ++
        joinComma (((d.alerts.filter (fun a => a.type == some "error")).map
          (fun a => a.message.getD "")).take 2), ?_, ?_⟩
      · rcases hs with h | h | h <;> simp [check_ssl_errors, hb, h, he]
      · intro m hm
        exact strContains_append_right _ _ _ (strContains_mem_joinComma _ _ hm)

/-- Witness for C9: an errored check with two error alerts yields a
single high-severity ssl_error whose message is non-trivial. -/
theorem C9_ssl_error_check_witness :
    check_ssl_errors ⟨"error", [⟨some "error", some "boom"⟩]⟩
        ⟨true, true, true, true, true, false, true⟩ ≠ none := by
  obtain ⟨msg, hm, _⟩ :=
    (C9_ssl_error_check ⟨"error", [⟨some "error", some "boom"⟩]⟩
      ⟨true, true, true, true, true, false, true⟩).2.2 rfl (Or.inl rfl)
  simp [hm]
